import Mathlib

/-!
Shallow embedding of the render_server Instagram automation pipeline.

The repository has two server variants:
 * `src/unnamed/part_000` — the main render server (`/webhook/process`,
   `/process/pending`, cron sweeps).  Embedded in namespace `Render`.
 * `src/server.js` — the processor variant (`/process-webhook`, flattened
   field/value entries, no `logEvent` audit calls).  Embedded in namespace
   `Processor`.

Strings are `List Char`; JavaScript `toLowerCase` is `Char.toLower` mapped,
`String.prototype.includes` is the `includes` function below.  MongoDB
collections are Lean lists in insertion order; `insertOne` appends,
`updateOne` rewrites the first matching document, `find` filters in order.
Outbound `fetch` calls are resolved by an oracle `Nat → FetchRes` indexed by
the number of calls already issued; the state also records every Dispatcher
invocation (`dispatches`) and every actual HTTP call (`calls`).
-/

/-- Strings of the embedded program: JavaScript strings as character lists. -/
abbrev Str := List Char

/-- JavaScript `toLowerCase` (ASCII-faithful). -/
def toLowerStr (s : Str) : Str := s.map Char.toLower

/-- `leadsWith needle hay` — `needle` occurs at the start of `hay`. -/
def leadsWith : Str → Str → Bool
  | [], _ => true
  | _ :: _, [] => false
  | a :: as, b :: bs => a == b && leadsWith as bs

/-- JavaScript `hay.includes(needle)`: contiguous substring test. -/
def includes : Str → Str → Bool
  | [], needle => leadsWith needle []
  | c :: t, needle => leadsWith needle (c :: t) || includes t needle

/-! ## Wire format of webhook envelopes -/

/-- The `message` payload of a messaging item (`mid`, `is_echo`, `text`,
`attachments`); absent JSON fields are `none`, an absent `is_echo` is the
falsy `false`. -/
structure MessagePayload where
  mid : Option Str
  is_echo : Bool
  text : Option Str
  attachments : Option (List Str)
  deriving DecidableEq, Repr

/-- One item of `entry.messaging`; `senderId`/`recipientId` model
`message.sender?.id` / `message.recipient?.id`. -/
structure MessagingItem where
  senderId : Option Str
  recipientId : Option Str
  timestamp : Option Nat
  message : Option MessagePayload
  deriving DecidableEq, Repr

/-- A comment change value (both Facebook Login and Business Login shapes):
`fromId`/`fromUsername` model `value.from?.id` / `value.from?.username`,
`mediaId` models `value.media?.id`. -/
structure CommentValue where
  id : Option Str
  comment_id : Option Str
  mediaId : Option Str
  parent_id : Option Str
  fromId : Option Str
  fromUsername : Option Str
  text : Option Str
  created_time : Option Nat
  timestamp : Option Nat
  deriving DecidableEq, Repr

/-- One item of `entry.changes`. -/
structure Change where
  field : Str
  value : CommentValue
  deriving DecidableEq, Repr

/-- One webhook entry; `field`/`value` are the flattened variant read only by
`src/server.js`. -/
structure Entry where
  id : Str
  messaging : Option (List MessagingItem)
  changes : Option (List Change)
  field : Option Str
  value : Option CommentValue
  deriving DecidableEq, Repr

/-- A webhook envelope `{object, entry}`. -/
structure WebhookPayload where
  object : Str
  entry : Option (List Entry)
  deriving DecidableEq, Repr

/-! ## Stored documents -/

/-- A `webhook_events` document (inserted by the out-of-scope forwarder,
consumed by the reconciliation sweep). `docId` is the Mongo `_id`. -/
structure WebhookEvent where
  docId : Nat
  data : WebhookPayload
  processed : Bool
  error : Option Str
  processedAt : Option Nat
  createdAt : Nat
  deriving DecidableEq, Repr

/-- A `messages` document as built by `handleMessage`. -/
structure MessageEvent where
  docId : Nat
  instagramId : Str
  messageId : Str
  senderId : Option Str
  recipientId : Option Str
  timestamp : Nat
  text : Str
  attachments : List Str
  isEcho : Bool
  createdAt : Nat
  processed : Bool
  deriving DecidableEq, Repr

/-- A `comments` document as built by `handleComment`.  The schema is
permissive: `error` is carried as an optional attribute so that claims about
an `error` field on comments can be stated; the code never writes it. -/
structure CommentEvent where
  docId : Nat
  instagramId : Str
  commentId : Str
  mediaId : Option Str
  parentId : Option Str
  userId : Option Str
  username : Option Str
  text : Str
  timestamp : Nat
  createdAt : Nat
  isProcessed : Bool
  automationId : Option Nat
  replyId : Option Str
  repliedAt : Option Nat
  error : Option Str
  deriving DecidableEq, Repr

/-- An `accounts` document. -/
structure Account where
  instagramId : Str
  accessToken : Option Str
  deriving DecidableEq, Repr

/-- An `automations` document. -/
structure Automation where
  docId : Nat
  instagramId : Str
  isActive : Bool
  type : Str
  name : Str
  triggerKeywords : Option (List Str)
  replyMessage : Str
  deriving DecidableEq, Repr

/-- An `automation_logs` document. -/
structure AutomationLog where
  automationId : Nat
  automationName : Str
  instagramId : Str
  triggeredBy : Option Str
  triggerText : Str
  replyMessage : Str
  triggerType : Str
  timestamp : Nat
  deriving DecidableEq, Repr

/-- A `webhook_logs` document.  The opaque `data` payload is projected to the
single attribute any code queries — `data.entry[0].id` (`dataFirstEntryId`);
`processed`/`processedAt` are the flags `src/server.js` sets on it. -/
structure WebhookLog where
  eventType : Str
  success : Bool
  dataFirstEntryId : Option Str
  processed : Bool
  processedAt : Option Nat
  deriving DecidableEq, Repr

/-- The five logical collections of the `instaautodm` database. -/
structure Store where
  webhook_events : List WebhookEvent
  messages : List MessageEvent
  comments : List CommentEvent
  accounts : List Account
  automations : List Automation
  automation_logs : List AutomationLog
  webhook_logs : List WebhookLog
  deriving DecidableEq, Repr

/-- A Dispatcher invocation (entering `sendDirectMessage`/`replyToComment`). -/
inductive Dispatch where
  | dm (instagramId : Str) (recipientId : Option Str) (text : Str)
  | commentReply (commentId : Str) (text : Str) (instagramId : Str)
  deriving DecidableEq, Repr

/-- An outbound HTTP call actually issued to the Graph API. -/
inductive OutCall where
  | msgSend (instagramId : Str) (recipientId : Option Str) (text : Str) (token : Str)
  | commentReplySend (commentId : Str) (text : Str) (token : Str)
  deriving DecidableEq, Repr

/-- The external platform's response to one `fetch`: HTTP-level `ok` plus the
`id` attribute of the parsed body (absent ⇒ `none`). -/
structure FetchRes where
  ok : Bool
  respId : Option Str
  deriving DecidableEq, Repr

/-- The `error` attribute of a dispatch result: the literal string
`"No access token"` or the remote error body. -/
inductive ErrVal where
  | noToken
  | api (respId : Option Str)
  deriving DecidableEq, Repr

/-- The `{success, messageId|replyId, error}` result shape of the Dispatcher. -/
structure CallResult where
  success : Bool
  rid : Option Str
  error : Option ErrVal
  deriving DecidableEq, Repr

/-- An HTTP response of the inbound endpoints (status, body `success` flag,
body `processed` count when present). -/
structure Response where
  status : Nat
  success : Bool
  processed : Option Nat
  deriving DecidableEq, Repr

/-- Full program state: the database plus the observable outbound activity,
the store's next `_id`, and the current clock value. -/
structure St where
  store : Store
  dispatches : List Dispatch
  calls : List OutCall
  nextId : Nat
  now : Nat
  deriving DecidableEq, Repr

/-! ## Shared helpers -/

/-- JavaScript truthiness of an optional string (`""` is falsy). -/
def truthy (o : Option Str) : Option Str :=
  match o with
  | none => none
  | some s => if s.isEmpty then none else some s

/-- JavaScript `x || dflt` for an optional number (`0` is falsy). -/
def numOr (o : Option Nat) (dflt : Nat) : Nat :=
  match o with
  | none => dflt
  | some n => if n = 0 then dflt else n

/-- Mongo `updateOne`: rewrite the first document matching `p`. -/
def updateFirst (p : α → Bool) (f : α → α) : List α → List α
  | [] => []
  | x :: t => if p x then f x :: t else x :: updateFirst p f t

/-- Replace the `messages` collection. -/
def setMessages (l : List MessageEvent) (s : St) : St :=
  { s with store := { s.store with messages := l } }

/-- Replace the `comments` collection. -/
def setComments (l : List CommentEvent) (s : St) : St :=
  { s with store := { s.store with comments := l } }

/-- Replace the `webhook_events` collection. -/
def setWebhookEvents (l : List WebhookEvent) (s : St) : St :=
  { s with store := { s.store with webhook_events := l } }

/-- Replace the `webhook_logs` collection. -/
def setWebhookLogs (l : List WebhookLog) (s : St) : St :=
  { s with store := { s.store with webhook_logs := l } }

/-- Mongo `findOne({instagramId})` on the `accounts` collection. -/
def findAccount (accounts : List Account) (ig : Str) : Option Account :=
  accounts.find? (fun a => a.instagramId == ig)

/-- The token used by the Dispatcher: `none` exactly when
`!account?.accessToken` (absent account, absent token, or empty token). -/
def liveToken (acc : Option Account) : Option Str :=
  match acc with
  | none => none
  | some a => truthy a.accessToken

/-- Synthetic message id for a missing `mid`. -/
def msgSynthId (now : Nat) : Str := ("msg_".data) ++ Nat.toDigits 10 now

/-- Synthetic comment id for missing `id`/`comment_id`. -/
def commentSynthId (now : Nat) : Str := ("comment_".data) ++ Nat.toDigits 10 now

def instagramS : Str := "instagram".data
def commentsS : Str := "comments".data
def liveCommentsS : Str := "live_comments".data
def messageS : Str := "message".data
def commentS : Str := "comment".data

def evMessageStored : Str := "message_stored".data
def evCommentStored : Str := "comment_stored".data
def evAutomationTriggered : Str := "automation_triggered".data
def evCommentAutomationTriggered : Str := "comment_automation_triggered".data
def evNoMessageAutomations : Str := "no_message_automations".data
def evNoCommentAutomations : Str := "no_comment_automations".data
def evWebhookProcessed : Str := "webhook_processed_on_render".data

/-- `webhookData.entry?.[0]?.id`. -/
def firstEntryId (body : WebhookPayload) : Option Str :=
  match body.entry with
  | none => none
  | some es => es.head?.map (fun e => e.id)

/-! ## Audit sink and Dispatcher (identical in both variants) -/

/-- `logEvent(eventType, data, success, error)` of `part_000`: best-effort
append to `webhook_logs`; the opaque `data`/`error` payloads are projected to
the queried attribute `dataFirstEntryId`. -/
def logEvent (eventType : Str) (dataFirstEntryId : Option Str) (success : Bool)
    (s : St) : St :=
  { s with store := { s.store with webhook_logs := s.store.webhook_logs ++
      [{ eventType := eventType, success := success,
         dataFirstEntryId := dataFirstEntryId, processed := false,
         processedAt := none }] } }

/-- `logAutomationTrigger`: append one firing record to `automation_logs`. -/
def logAutomationTrigger (a : Automation) (instagramId : Str)
    (triggeredBy : Option Str) (triggerText replyMessage triggerType : Str)
    (s : St) : St :=
  { s with store := { s.store with automation_logs := s.store.automation_logs ++
      [{ automationId := a.docId, automationName := a.name,
         instagramId := instagramId, triggeredBy := triggeredBy,
         triggerText := triggerText, replyMessage := replyMessage,
         triggerType := triggerType, timestamp := s.now }] } }

/-- `sendDirectMessage(instagramId, recipientId, message)`: look up the
account, fail fast without a call when the token is missing, otherwise issue
one POST to the message-send endpoint and normalize the outcome. -/
def sendDirectMessage (ora : Nat → FetchRes) (instagramId : Str)
    (recipientId : Option Str) (message : Str) (s : St) : CallResult × St :=
  let s1 := { s with dispatches := s.dispatches ++
      [Dispatch.dm instagramId recipientId message] }
  match liveToken (findAccount s1.store.accounts instagramId) with
  | none => ({ success := false, rid := none, error := some ErrVal.noToken }, s1)
  | some token =>
    let res := ora s1.calls.length
    let s2 := { s1 with calls := s1.calls ++
        [OutCall.msgSend instagramId recipientId message token] }
    if res.ok then ({ success := true, rid := res.respId, error := none }, s2)
    else ({ success := false, rid := none, error := some (ErrVal.api res.respId) }, s2)

/-- `replyToComment(commentId, replyMessage, instagramId)`: same credential
contract, one POST to the comment-reply endpoint. -/
def replyToComment (ora : Nat → FetchRes) (commentId replyMessage instagramId : Str)
    (s : St) : CallResult × St :=
  let s1 := { s with dispatches := s.dispatches ++
      [Dispatch.commentReply commentId replyMessage instagramId] }
  match liveToken (findAccount s1.store.accounts instagramId) with
  | none => ({ success := false, rid := none, error := some ErrVal.noToken }, s1)
  | some token =>
    let res := ora s1.calls.length
    let s2 := { s1 with calls := s1.calls ++
        [OutCall.commentReplySend commentId replyMessage token] }
    if res.ok then ({ success := true, rid := res.respId, error := none }, s2)
    else ({ success := false, rid := none, error := some (ErrVal.api res.respId) }, s2)

/-! ## Automation matching (shared shape) -/

/-- `db.automations.find({instagramId, isActive:true, type})` in natural
(insertion) order. -/
def activeAutomations (store : Store) (ig ty : Str) : List Automation :=
  store.automations.filter (fun a => a.instagramId == ig && a.isActive && a.type == ty)

/-- `keywords.some(kw => text.includes(kw.toLowerCase()))` where `text` is
already lowercased and `keywords = automation.triggerKeywords || []`. -/
def hasKeyword (a : Automation) (lowText : Str) : Bool :=
  (a.triggerKeywords.getD []).any (fun kw => includes lowText (toLowerStr kw))

/-- `messageData` as built by `handleMessage` (identical in both files). -/
def buildMessageData (instagramId : Str) (m : MessagingItem)
    (payload : MessagePayload) (s : St) : MessageEvent :=
  { docId := s.nextId,
    instagramId := instagramId,
    messageId := (truthy payload.mid).getD (msgSynthId s.now),
    senderId := m.senderId,
    recipientId := m.recipientId,
    timestamp := numOr m.timestamp s.now,
    text := payload.text.getD [],
    attachments := payload.attachments.getD [],
    isEcho := false,
    createdAt := s.now,
    processed := false }

/-- `commentData` as built by `handleComment` (identical in both files). -/
def buildCommentData (instagramId : Str) (v : CommentValue) (s : St) : CommentEvent :=
  { docId := s.nextId,
    instagramId := instagramId,
    commentId := ((truthy v.id).orElse (fun _ => truthy v.comment_id)).getD
      (commentSynthId s.now),
    mediaId := v.mediaId,
    parentId := v.parent_id,
    userId := v.fromId,
    username := v.fromUsername,
    text := v.text.getD [],
    timestamp := numOr v.created_time (numOr v.timestamp s.now),
    createdAt := s.now,
    isProcessed := false,
    automationId := none, replyId := none, repliedAt := none, error := none }

namespace Render

/-- The `for (const automation of automations)` loop of
`processMessageAutomation`: dispatch on the first keyword match, log the
attempt, log the firing only on success, then `break`. -/
def runMessageAutomations (ora : Nat → FetchRes) (instagramId : Str)
    (md : MessageEvent) (lowText : Str) : List Automation → St → St
  | [], s => s
  | a :: rest, s =>
    if hasKeyword a lowText then
      let pr := sendDirectMessage ora instagramId md.senderId a.replyMessage s
      let s2 := logEvent evAutomationTriggered none true pr.2
      if pr.1.success then
        logAutomationTrigger a instagramId md.senderId md.text a.replyMessage messageS s2
      else s2
    else runMessageAutomations ora instagramId md lowText rest s

/-- `processMessageAutomation(instagramId, messageData)` of `part_000`. -/
def processMessageAutomation (ora : Nat → FetchRes) (instagramId : Str)
    (md : MessageEvent) (s : St) : St :=
  let automations := activeAutomations s.store instagramId messageS
  if automations.isEmpty then logEvent evNoMessageAutomations none true s
  else runMessageAutomations ora instagramId md (toLowerStr md.text) automations s

/-- The comment automation loop: dispatch on the first keyword match, log the
attempt, and on success log the firing and mark the comment document
processed with the automation id, reply id and reply time; then `break`. -/
def runCommentAutomations (ora : Nat → FetchRes) (instagramId : Str)
    (cd : CommentEvent) (lowText : Str) : List Automation → St → St
  | [], s => s
  | a :: rest, s =>
    if hasKeyword a lowText then
      let pr := replyToComment ora cd.commentId a.replyMessage instagramId s
      let s2 := logEvent evCommentAutomationTriggered none true pr.2
      if pr.1.success then
        let s3 := logAutomationTrigger a instagramId cd.userId cd.text
          a.replyMessage commentS s2
        let upd := fun (c : CommentEvent) =>
          { c with isProcessed := true, automationId := some a.docId,
                   replyId := pr.1.rid, repliedAt := some s3.now }
        setComments (updateFirst (fun c => c.docId == cd.docId) upd s3.store.comments) s3
      else s2
    else runCommentAutomations ora instagramId cd lowText rest s

/-- `processCommentAutomation(instagramId, commentData)` of `part_000`. -/
def processCommentAutomation (ora : Nat → FetchRes) (instagramId : Str)
    (cd : CommentEvent) (s : St) : St :=
  let automations := activeAutomations s.store instagramId commentS
  if automations.isEmpty then logEvent evNoCommentAutomations none true s
  else runCommentAutomations ora instagramId cd (toLowerStr cd.text) automations s

/-- `handleMessage(instagramId, message)` of `part_000`: skip silently when
the `message` payload is absent or an echo; otherwise insert the document,
log, and run automation when the text is non-empty. -/
def handleMessage (ora : Nat → FetchRes) (instagramId : Str) (m : MessagingItem)
    (s : St) : St :=
  match m.message with
  | none => s
  | some payload =>
    if payload.is_echo then s
    else
      let md := buildMessageData instagramId m payload s
      let s1 := setMessages (s.store.messages ++ [md]) { s with nextId := s.nextId + 1 }
      let s2 := logEvent evMessageStored none true s1
      if md.text.isEmpty then s2
      else processMessageAutomation ora instagramId md s2

/-- `handleComment(instagramId, commentValue)` of `part_000`: insert the
document, log, and run automation when the text is non-empty. -/
def handleComment (ora : Nat → FetchRes) (instagramId : Str) (v : CommentValue)
    (s : St) : St :=
  let cd := buildCommentData instagramId v s
  let s1 := setComments (s.store.comments ++ [cd]) { s with nextId := s.nextId + 1 }
  let s2 := logEvent evCommentStored none true s1
  if cd.text.isEmpty then s2
  else processCommentAutomation ora instagramId cd s2

/-- `processWebhookEntries(entries)` of `part_000`: messaging items in array
order, then changes with `field ∈ {comments, live_comments}`. -/
def processWebhookEntries (ora : Nat → FetchRes) (entries : List Entry) (s : St) : St :=
  entries.foldl (fun s entry =>
    let s1 := match entry.messaging with
      | none => s
      | some items => items.foldl (fun s m => handleMessage ora entry.id m s) s
    match entry.changes with
    | none => s1
    | some chs => chs.foldl (fun s ch =>
        if ch.field == commentsS || ch.field == liveCommentsS then
          handleComment ora entry.id ch.value s
        else s) s1) s

/-- `POST /webhook/process` (after auth): process an Instagram envelope and
log, or reject with `400` and no side effect. -/
def webhookProcess (ora : Nat → FetchRes) (body : WebhookPayload) (s : St) :
    Response × St :=
  if body.object == instagramS && body.entry.isSome then
    let s1 := processWebhookEntries ora (body.entry.getD []) s
    let s2 := logEvent evWebhookProcessed (firstEntryId body) true s1
    ({ status := 200, success := true, processed := none }, s2)
  else ({ status := 400, success := false, processed := none }, s)

/-- The relation `createdAt ≤ createdAt` used by the pending sort. -/
def createdLe (a b : WebhookEvent) : Prop := a.createdAt ≤ b.createdAt

instance : DecidableRel createdLe := fun a b => Nat.decLe a.createdAt b.createdAt

instance : IsTotal WebhookEvent createdLe :=
  ⟨fun a b => Nat.le_total a.createdAt b.createdAt⟩

instance : IsTrans WebhookEvent createdLe :=
  ⟨fun _ _ _ hab hbc => Nat.le_trans hab hbc⟩

/-- `db.webhook_events.find({processed:false}).sort({createdAt:1}).limit(n)`. -/
def fetchPending (evs : List WebhookEvent) (limit : Nat) : List WebhookEvent :=
  (List.insertionSort createdLe (evs.filter (fun e => !e.processed))).take limit

/-- The body of the `/process/pending` per-event loop: re-drive an Instagram
envelope through `processWebhookEntries` and mark the event processed.  An
event whose data is not an Instagram envelope is left untouched.  (The
`catch` branch that records `error`/`processedAt` fires only on thrown
exceptions; outbound failures are returned as values and never throw.) -/
def sweepOne (ora : Nat → FetchRes) (ev : WebhookEvent) (s : St) : St :=
  if ev.data.object == instagramS && ev.data.entry.isSome then
    let s1 := processWebhookEntries ora (ev.data.entry.getD []) s
    let upd := fun (e : WebhookEvent) =>
      { e with processed := true, processedAt := some s1.now }
    setWebhookEvents (updateFirst (fun e => e.docId == ev.docId) upd s1.store.webhook_events) s1
  else s

/-- `POST /process/pending` (after auth): sweep up to 50 oldest unprocessed
webhook events. -/
def processPending (ora : Nat → FetchRes) (s : St) : Response × St :=
  let pending := fetchPending s.store.webhook_events 50
  let s1 := pending.foldl (fun s ev => sweepOne ora ev s) s
  ({ status := 200, success := true, processed := some pending.length }, s1)

end Render

namespace Processor

/-- The message automation loop of `src/server.js`: like the render variant
but with no `logEvent` audit call. -/
def runMessageAutomations (ora : Nat → FetchRes) (instagramId : Str)
    (md : MessageEvent) (lowText : Str) : List Automation → St → St
  | [], s => s
  | a :: rest, s =>
    if hasKeyword a lowText then
      let pr := sendDirectMessage ora instagramId md.senderId a.replyMessage s
      if pr.1.success then
        logAutomationTrigger a instagramId md.senderId md.text a.replyMessage messageS pr.2
      else pr.2
    else runMessageAutomations ora instagramId md lowText rest s

/-- `processMessageAutomation` of `src/server.js`. -/
def processMessageAutomation (ora : Nat → FetchRes) (instagramId : Str)
    (md : MessageEvent) (s : St) : St :=
  let automations := activeAutomations s.store instagramId messageS
  if automations.isEmpty then s
  else runMessageAutomations ora instagramId md (toLowerStr md.text) automations s

/-- The comment automation loop of `src/server.js`. -/
def runCommentAutomations (ora : Nat → FetchRes) (instagramId : Str)
    (cd : CommentEvent) (lowText : Str) : List Automation → St → St
  | [], s => s
  | a :: rest, s =>
    if hasKeyword a lowText then
      let pr := replyToComment ora cd.commentId a.replyMessage instagramId s
      if pr.1.success then
        let s3 := logAutomationTrigger a instagramId cd.userId cd.text
          a.replyMessage commentS pr.2
        let upd := fun (c : CommentEvent) =>
          { c with isProcessed := true, automationId := some a.docId,
                   replyId := pr.1.rid, repliedAt := some s3.now }
        setComments (updateFirst (fun c => c.docId == cd.docId) upd s3.store.comments) s3
      else pr.2
    else runCommentAutomations ora instagramId cd lowText rest s

/-- `processCommentAutomation` of `src/server.js`. -/
def processCommentAutomation (ora : Nat → FetchRes) (instagramId : Str)
    (cd : CommentEvent) (s : St) : St :=
  let automations := activeAutomations s.store instagramId commentS
  if automations.isEmpty then s
  else runCommentAutomations ora instagramId cd (toLowerStr cd.text) automations s

/-- `handleMessage` of `src/server.js` (no `logEvent` calls). -/
def handleMessage (ora : Nat → FetchRes) (instagramId : Str) (m : MessagingItem)
    (s : St) : St :=
  match m.message with
  | none => s
  | some payload =>
    if payload.is_echo then s
    else
      let md := buildMessageData instagramId m payload s
      let s1 := setMessages (s.store.messages ++ [md]) { s with nextId := s.nextId + 1 }
      if md.text.isEmpty then s1
      else processMessageAutomation ora instagramId md s1

/-- `handleComment` of `src/server.js`.  The flattened-entry call site can
pass an absent `entry.value`; dereferencing it throws and is caught by the
function's own `try`, persisting nothing. -/
def handleComment (ora : Nat → FetchRes) (instagramId : Str)
    (v? : Option CommentValue) (s : St) : St :=
  match v? with
  | none => s
  | some v =>
    let cd := buildCommentData instagramId v s
    let s1 := setComments (s.store.comments ++ [cd]) { s with nextId := s.nextId + 1 }
    if cd.text.isEmpty then s1
    else processCommentAutomation ora instagramId cd s1

/-- `processWebhookEntries` of `src/server.js`: messaging items, then change
items, then the flattened `field`/`value` variant on the entry itself. -/
def processWebhookEntries (ora : Nat → FetchRes) (entries : List Entry) (s : St) : St :=
  entries.foldl (fun s entry =>
    let s1 := match entry.messaging with
      | none => s
      | some items => items.foldl (fun s m => handleMessage ora entry.id m s) s
    let s2 := match entry.changes with
      | none => s1
      | some chs => chs.foldl (fun s ch =>
          if ch.field == commentsS || ch.field == liveCommentsS then
            handleComment ora entry.id (some ch.value) s
          else s) s1
    match entry.field with
    | none => s2
    | some f =>
      if f == commentsS || f == liveCommentsS then
        handleComment ora entry.id entry.value s2
      else s2) s

/-- `POST /process-webhook` of `src/server.js`: after the auth and
db-connected guards it updates the webhook log matched on `data.entry.0.id`
(setting `processed`/`processedAt`), processes Instagram envelopes, and
answers `{success:true}` with status 200 in every non-throwing case — there
is no 400 rejection for non-Instagram envelopes. -/
def processWebhook (authorized : Bool) (ora : Nat → FetchRes)
    (body : WebhookPayload) (s : St) : Response × St :=
  if !authorized then ({ status := 401, success := false, processed := none }, s)
  else
    let upd := fun (d : WebhookLog) =>
      { d with processed := true, processedAt := some s.now }
    let s1 := setWebhookLogs
      (updateFirst (fun d => d.dataFirstEntryId == firstEntryId body) upd
        s.store.webhook_logs) s
    let s2 := if body.object == instagramS && body.entry.isSome then
        processWebhookEntries ora (body.entry.getD []) s1
      else s1
    ({ status := 200, success := true, processed := none }, s2)

end Processor

/-! ## Helper lemmas -/

theorem updateFirst_length (p : α → Bool) (f : α → α) (l : List α) :
    (updateFirst p f l).length = l.length := by
  induction l with
  | nil => rfl
  | cons x t ih =>
    by_cases h : p x = true <;> simp [updateFirst, h, ih]

theorem mem_updateFirst {p : α → Bool} {f : α → α} {l : List α} {c : α}
    (hc : c ∈ updateFirst p f l) : c ∈ l ∨ ∃ x, x ∈ l ∧ c = f x := by
  induction l with
  | nil => simp [updateFirst] at hc
  | cons x t ih =>
    by_cases h : p x = true
    · simp [updateFirst, h] at hc
      rcases hc with hc | hc
      · exact Or.inr ⟨x, by simp, hc⟩
      · exact Or.inl (by simp [hc])
    · simp [updateFirst, h] at hc
      rcases hc with hc | hc
      · exact Or.inl (by simp [hc])
      · rcases ih hc with h1 | ⟨y, hy, hcy⟩
        · exact Or.inl (by simp [h1])
        · exact Or.inr ⟨y, by simp [hy], hcy⟩

theorem includes_nil (hay : Str) : includes hay [] = true := by
  cases hay <;> simp [includes, leadsWith]

theorem sendDirectMessage_frame (ora : Nat → FetchRes) (ig : Str)
    (recip : Option Str) (msg : Str) (s : St) :
    (sendDirectMessage ora ig recip msg s).2.store = s.store
    ∧ (sendDirectMessage ora ig recip msg s).2.dispatches
        = s.dispatches ++ [Dispatch.dm ig recip msg]
    ∧ (sendDirectMessage ora ig recip msg s).2.nextId = s.nextId
    ∧ (sendDirectMessage ora ig recip msg s).2.now = s.now := by
  unfold sendDirectMessage
  cases h : liveToken (findAccount s.store.accounts ig) with
  | none => simp [h]
  | some token => cases hok : (ora s.calls.length).ok <;> simp [h, hok]

@[simp] theorem logEvent_dispatches (t : Str) (d : Option Str) (b : Bool) (s : St) :
    (logEvent t d b s).dispatches = s.dispatches := rfl

@[simp] theorem logEvent_calls (t : Str) (d : Option Str) (b : Bool) (s : St) :
    (logEvent t d b s).calls = s.calls := rfl

@[simp] theorem logEvent_messages (t : Str) (d : Option Str) (b : Bool) (s : St) :
    (logEvent t d b s).store.messages = s.store.messages := rfl

@[simp] theorem logEvent_comments (t : Str) (d : Option Str) (b : Bool) (s : St) :
    (logEvent t d b s).store.comments = s.store.comments := rfl

@[simp] theorem logEvent_automation_logs (t : Str) (d : Option Str) (b : Bool) (s : St) :
    (logEvent t d b s).store.automation_logs = s.store.automation_logs := rfl

@[simp] theorem logEvent_webhook_events (t : Str) (d : Option Str) (b : Bool) (s : St) :
    (logEvent t d b s).store.webhook_events = s.store.webhook_events := rfl

@[simp] theorem logAutomationTrigger_dispatches (a : Automation) (ig : Str)
    (tb : Option Str) (tt rm ty : Str) (s : St) :
    (logAutomationTrigger a ig tb tt rm ty s).dispatches = s.dispatches := rfl

@[simp] theorem logAutomationTrigger_messages (a : Automation) (ig : Str)
    (tb : Option Str) (tt rm ty : Str) (s : St) :
    (logAutomationTrigger a ig tb tt rm ty s).store.messages = s.store.messages := rfl

@[simp] theorem logAutomationTrigger_comments (a : Automation) (ig : Str)
    (tb : Option Str) (tt rm ty : Str) (s : St) :
    (logAutomationTrigger a ig tb tt rm ty s).store.comments = s.store.comments := rfl

@[simp] theorem logAutomationTrigger_webhook_events (a : Automation) (ig : Str)
    (tb : Option Str) (tt rm ty : Str) (s : St) :
    (logAutomationTrigger a ig tb tt rm ty s).store.webhook_events
      = s.store.webhook_events := rfl

@[simp] theorem setComments_dispatches (l : List CommentEvent) (s : St) :
    (setComments l s).dispatches = s.dispatches := rfl

@[simp] theorem setComments_comments (l : List CommentEvent) (s : St) :
    (setComments l s).store.comments = l := rfl

@[simp] theorem setComments_messages (l : List CommentEvent) (s : St) :
    (setComments l s).store.messages = s.store.messages := rfl

@[simp] theorem setComments_automation_logs (l : List CommentEvent) (s : St) :
    (setComments l s).store.automation_logs = s.store.automation_logs := rfl

@[simp] theorem setComments_webhook_events (l : List CommentEvent) (s : St) :
    (setComments l s).store.webhook_events = s.store.webhook_events := rfl

@[simp] theorem setMessages_dispatches (l : List MessageEvent) (s : St) :
    (setMessages l s).dispatches = s.dispatches := rfl

@[simp] theorem setMessages_messages (l : List MessageEvent) (s : St) :
    (setMessages l s).store.messages = l := rfl

@[simp] theorem setMessages_comments (l : List MessageEvent) (s : St) :
    (setMessages l s).store.comments = s.store.comments := rfl

@[simp] theorem setMessages_webhook_events (l : List MessageEvent) (s : St) :
    (setMessages l s).store.webhook_events = s.store.webhook_events := rfl

@[simp] theorem setWebhookEvents_comments (l : List WebhookEvent) (s : St) :
    (setWebhookEvents l s).store.comments = s.store.comments := rfl

@[simp] theorem setWebhookEvents_messages (l : List WebhookEvent) (s : St) :
    (setWebhookEvents l s).store.messages = s.store.messages := rfl

@[simp] theorem setWebhookEvents_webhook_events (l : List WebhookEvent) (s : St) :
    (setWebhookEvents l s).store.webhook_events = l := rfl

@[simp] theorem setWebhookEvents_dispatches (l : List WebhookEvent) (s : St) :
    (setWebhookEvents l s).dispatches = s.dispatches := rfl

theorem replyToComment_frame (ora : Nat → FetchRes) (cid msg ig : Str) (s : St) :
    (replyToComment ora cid msg ig s).2.store = s.store
    ∧ (replyToComment ora cid msg ig s).2.dispatches
        = s.dispatches ++ [Dispatch.commentReply cid msg ig]
    ∧ (replyToComment ora cid msg ig s).2.nextId = s.nextId
    ∧ (replyToComment ora cid msg ig s).2.now = s.now := by
  unfold replyToComment
  cases h : liveToken (findAccount s.store.accounts ig) with
  | none => simp [h]
  | some token => cases hok : (ora s.calls.length).ok <;> simp [h, hok]

/-- The comment automation loop dispatches exactly for the first automation
whose keyword test succeeds on the lowercased text, then stops. -/
theorem runCommentAutomations_dispatches (ora : Nat → FetchRes) (ig : Str)
    (cd : CommentEvent) (low : Str) (autos : List Automation) (s : St) :
    (Render.runCommentAutomations ora ig cd low autos s).dispatches =
      s.dispatches ++ (match autos.find? (fun a => hasKeyword a low) with
        | none => []
        | some a => [Dispatch.commentReply cd.commentId a.replyMessage ig]) := by
  induction autos generalizing s with
  | nil => simp [Render.runCommentAutomations]
  | cons a rest ih =>
    by_cases h : hasKeyword a low = true
    · rw [@List.find?_cons_of_pos _ (fun b => hasKeyword b low) a rest h]
      simp only [Render.runCommentAutomations, h, if_true]
      cases hs : (replyToComment ora cd.commentId a.replyMessage ig s).1.success <;>
        simp [hs, (replyToComment_frame ora cd.commentId a.replyMessage ig s).2.1]
    · rw [@List.find?_cons_of_neg _ (fun b => hasKeyword b low) a rest h]
      simp only [Render.runCommentAutomations, h, if_false]
      exact ih s

/-- The message automation loop dispatches exactly for the first automation
whose keyword test succeeds on the lowercased text, then stops. -/
theorem runMessageAutomations_dispatches (ora : Nat → FetchRes) (ig : Str)
    (md : MessageEvent) (low : Str) (autos : List Automation) (s : St) :
    (Render.runMessageAutomations ora ig md low autos s).dispatches =
      s.dispatches ++ (match autos.find? (fun a => hasKeyword a low) with
        | none => []
        | some a => [Dispatch.dm ig md.senderId a.replyMessage]) := by
  induction autos generalizing s with
  | nil => simp [Render.runMessageAutomations]
  | cons a rest ih =>
    by_cases h : hasKeyword a low = true
    · rw [@List.find?_cons_of_pos _ (fun b => hasKeyword b low) a rest h]
      simp only [Render.runMessageAutomations, h, if_true]
      cases hs : (sendDirectMessage ora ig md.senderId a.replyMessage s).1.success <;>
        simp [hs, (sendDirectMessage_frame ora ig md.senderId a.replyMessage s).2.1]
    · rw [@List.find?_cons_of_neg _ (fun b => hasKeyword b low) a rest h]
      simp only [Render.runMessageAutomations, h, if_false]
      exact ih s

theorem map_updateFirst (p : α → Bool) (f : α → α) (g : α → β) (l : List α)
    (hg : ∀ x, g (f x) = g x) : (updateFirst p f l).map g = l.map g := by
  induction l with
  | nil => rfl
  | cons x t ih =>
    by_cases h : p x = true <;> simp [updateFirst, h, ih, hg]

/-- Number of comment-type changes carried by a list of entries. -/
def commentChangeCount (entries : List Entry) : Nat :=
  (entries.map (fun e => ((e.changes.getD []).filter
    (fun ch => ch.field == commentsS || ch.field == liveCommentsS)).length)).sum

theorem runCommentAutomations_frame (ora : Nat → FetchRes) (ig : Str)
    (cd : CommentEvent) (low : Str) (autos : List Automation) (s : St) :
    (Render.runCommentAutomations ora ig cd low autos s).store.messages
        = s.store.messages
    ∧ (Render.runCommentAutomations ora ig cd low autos s).store.webhook_events
        = s.store.webhook_events
    ∧ (Render.runCommentAutomations ora ig cd low autos s).store.comments.map
        (fun c => c.error) = s.store.comments.map (fun c => c.error) := by
  induction autos generalizing s with
  | nil => simp [Render.runCommentAutomations]
  | cons a rest ih =>
    by_cases h : hasKeyword a low = true
    · simp only [Render.runCommentAutomations, h, if_true]
      have hf := replyToComment_frame ora cd.commentId a.replyMessage ig s
      cases hs : (replyToComment ora cd.commentId a.replyMessage ig s).1.success <;>
        simp [hs, hf.1, map_updateFirst, implies_true]
    · simp only [Render.runCommentAutomations, h, if_false]
      exact ih s

theorem processCommentAutomation_frame (ora : Nat → FetchRes) (ig : Str)
    (cd : CommentEvent) (s : St) :
    (Render.processCommentAutomation ora ig cd s).store.messages = s.store.messages
    ∧ (Render.processCommentAutomation ora ig cd s).store.webhook_events
        = s.store.webhook_events
    ∧ (Render.processCommentAutomation ora ig cd s).store.comments.map
        (fun c => c.error) = s.store.comments.map (fun c => c.error) := by
  unfold Render.processCommentAutomation
  by_cases h : (activeAutomations s.store ig commentS).isEmpty = true
  · simp [h]
  · simpa [h] using runCommentAutomations_frame ora ig cd (toLowerStr cd.text)
      (activeAutomations s.store ig commentS) s

theorem processCommentAutomation_dispatches (ora : Nat → FetchRes) (ig : Str)
    (cd : CommentEvent) (s : St) :
    (Render.processCommentAutomation ora ig cd s).dispatches =
      s.dispatches ++ (match (activeAutomations s.store ig commentS).find?
          (fun a => hasKeyword a (toLowerStr cd.text)) with
        | none => []
        | some a => [Dispatch.commentReply cd.commentId a.replyMessage ig]) := by
  unfold Render.processCommentAutomation
  by_cases h : (activeAutomations s.store ig commentS).isEmpty = true
  · have hnil : activeAutomations s.store ig commentS = [] := List.isEmpty_iff.mp h
    simp [h, hnil]
  · simpa [h] using runCommentAutomations_dispatches ora ig cd (toLowerStr cd.text)
      (activeAutomations s.store ig commentS) s

theorem runMessageAutomations_frame (ora : Nat → FetchRes) (ig : Str)
    (md : MessageEvent) (low : Str) (autos : List Automation) (s : St) :
    (Render.runMessageAutomations ora ig md low autos s).store.messages
        = s.store.messages
    ∧ (Render.runMessageAutomations ora ig md low autos s).store.webhook_events
        = s.store.webhook_events
    ∧ (Render.runMessageAutomations ora ig md low autos s).store.comments
        = s.store.comments := by
  induction autos generalizing s with
  | nil => simp [Render.runMessageAutomations]
  | cons a rest ih =>
    by_cases h : hasKeyword a low = true
    · simp only [Render.runMessageAutomations, h, if_true]
      have hf := sendDirectMessage_frame ora ig md.senderId a.replyMessage s
      cases hs : (sendDirectMessage ora ig md.senderId a.replyMessage s).1.success <;>
        simp [hs, hf.1]
    · simp only [Render.runMessageAutomations, h, if_false]
      exact ih s

theorem processMessageAutomation_frame (ora : Nat → FetchRes) (ig : Str)
    (md : MessageEvent) (s : St) :
    (Render.processMessageAutomation ora ig md s).store.messages = s.store.messages
    ∧ (Render.processMessageAutomation ora ig md s).store.webhook_events
        = s.store.webhook_events
    ∧ (Render.processMessageAutomation ora ig md s).store.comments
        = s.store.comments := by
  unfold Render.processMessageAutomation
  by_cases h : (activeAutomations s.store ig messageS).isEmpty = true
  · simp [h]
  · simpa [h] using runMessageAutomations_frame ora ig md (toLowerStr md.text)
      (activeAutomations s.store ig messageS) s

theorem processMessageAutomation_dispatches (ora : Nat → FetchRes) (ig : Str)
    (md : MessageEvent) (s : St) :
    (Render.processMessageAutomation ora ig md s).dispatches =
      s.dispatches ++ (match (activeAutomations s.store ig messageS).find?
          (fun a => hasKeyword a (toLowerStr md.text)) with
        | none => []
        | some a => [Dispatch.dm ig md.senderId a.replyMessage]) := by
  unfold Render.processMessageAutomation
  by_cases h : (activeAutomations s.store ig messageS).isEmpty = true
  · have hnil : activeAutomations s.store ig messageS = [] := List.isEmpty_iff.mp h
    simp [h, hnil]
  · simpa [h] using runMessageAutomations_dispatches ora ig md (toLowerStr md.text)
      (activeAutomations s.store ig messageS) s

theorem buildCommentData_error (ig : Str) (v : CommentValue) (s : St) :
    (buildCommentData ig v s).error = none := rfl

theorem buildMessageData_isEcho (ig : Str) (m : MessagingItem)
    (p : MessagePayload) (s : St) : (buildMessageData ig m p s).isEcho = false := rfl

theorem handleComment_comments (ora : Nat → FetchRes) (ig : Str) (v : CommentValue)
    (s : St) :
    (Render.handleComment ora ig v s).store.comments.map (fun c => c.error)
      = s.store.comments.map (fun c => c.error) ++ [none] := by
  unfold Render.handleComment
  by_cases h : (buildCommentData ig v s).text.isEmpty = true
  · simp [h, buildCommentData_error]
  · simp only [h, Bool.false_eq_true, if_false]
    have hf := processCommentAutomation_frame ora ig (buildCommentData ig v s)
      (logEvent evCommentStored none true
        (setComments (s.store.comments ++ [buildCommentData ig v s])
          { s with nextId := s.nextId + 1 }))
    simp only [hf.2.2]
    simp [buildCommentData_error]

theorem handleComment_frame (ora : Nat → FetchRes) (ig : Str) (v : CommentValue)
    (s : St) :
    (Render.handleComment ora ig v s).store.messages = s.store.messages
    ∧ (Render.handleComment ora ig v s).store.webhook_events
        = s.store.webhook_events := by
  unfold Render.handleComment
  by_cases h : (buildCommentData ig v s).text.isEmpty = true
  · simp [h]
  · simp only [h, Bool.false_eq_true, if_false]
    have hf := processCommentAutomation_frame ora ig (buildCommentData ig v s)
      (logEvent evCommentStored none true
        (setComments (s.store.comments ++ [buildCommentData ig v s])
          { s with nextId := s.nextId + 1 }))
    simp only [hf.1, hf.2.1]
    simp

theorem handleMessage_skip (ora : Nat → FetchRes) (ig : Str) (m : MessagingItem)
    (s : St) (h : (m.message.all fun p => p.is_echo) = true) :
    Render.handleMessage ora ig m s = s := by
  unfold Render.handleMessage
  cases hm : m.message with
  | none => rfl
  | some payload =>
    have he : payload.is_echo = true := by simpa [hm] using h
    simp [he]

theorem handleMessage_messages_insert (ora : Nat → FetchRes) (ig : Str)
    (m : MessagingItem) (p : MessagePayload) (s : St)
    (hm : m.message = some p) (he : p.is_echo = false) :
    (Render.handleMessage ora ig m s).store.messages
      = s.store.messages ++ [buildMessageData ig m p s] := by
  unfold Render.handleMessage
  rw [hm]
  simp only [he, Bool.false_eq_true, if_false]
  by_cases h : (buildMessageData ig m p s).text.isEmpty = true
  · simp [h]
  · simp only [h, Bool.false_eq_true, if_false]
    have hf := processMessageAutomation_frame ora ig (buildMessageData ig m p s)
      (logEvent evMessageStored none true
        (setMessages (s.store.messages ++ [buildMessageData ig m p s])
          { s with nextId := s.nextId + 1 }))
    simp only [hf.1]
    simp

theorem handleMessage_frame (ora : Nat → FetchRes) (ig : Str) (m : MessagingItem)
    (s : St) :
    (Render.handleMessage ora ig m s).store.comments = s.store.comments
    ∧ (Render.handleMessage ora ig m s).store.webhook_events
        = s.store.webhook_events := by
  unfold Render.handleMessage
  cases hm : m.message with
  | none => exact ⟨rfl, rfl⟩
  | some payload =>
    by_cases he : payload.is_echo = true
    · simp [he]
    · simp only [he, if_false]
      by_cases h : (buildMessageData ig m payload s).text.isEmpty = true
      · simp [h]
      · simp only [h, Bool.false_eq_true, if_false]
        have hf := processMessageAutomation_frame ora ig (buildMessageData ig m payload s)
          (logEvent evMessageStored none true
            (setMessages (s.store.messages ++ [buildMessageData ig m payload s])
              { s with nextId := s.nextId + 1 }))
        simp only [hf.2.1, hf.2.2]
        simp

theorem messagingFold_frame (ora : Nat → FetchRes) (eid : Str)
    (items : List MessagingItem) (s : St) :
    ((items.foldl (fun s m => Render.handleMessage ora eid m s) s).store.comments
        = s.store.comments)
    ∧ ((items.foldl (fun s m => Render.handleMessage ora eid m s) s).store.webhook_events
        = s.store.webhook_events) := by
  induction items generalizing s with
  | nil => exact ⟨rfl, rfl⟩
  | cons m rest ih =>
    have hm := handleMessage_frame ora eid m s
    have hr := ih (Render.handleMessage ora eid m s)
    simp only [List.foldl_cons]
    exact ⟨hr.1.trans hm.1, hr.2.trans hm.2⟩

theorem changesFold_comments (ora : Nat → FetchRes) (eid : Str)
    (chs : List Change) (s : St) :
    ((chs.foldl (fun s ch =>
        if ch.field == commentsS || ch.field == liveCommentsS then
          Render.handleComment ora eid ch.value s
        else s) s).store.comments.map (fun c => c.error))
      = s.store.comments.map (fun c => c.error) ++
        List.replicate ((chs.filter
          (fun ch => ch.field == commentsS || ch.field == liveCommentsS)).length) none := by
  induction chs generalizing s with
  | nil => simp
  | cons ch rest ih =>
    by_cases h : (ch.field == commentsS || ch.field == liveCommentsS) = true
    · simp only [List.foldl_cons, List.filter_cons, h, if_true]
      rw [ih (Render.handleComment ora eid ch.value s),
        handleComment_comments ora eid ch.value s]
      simp [List.replicate_succ]
    · simp only [List.foldl_cons, List.filter_cons, h, Bool.false_eq_true, if_false]
      rw [ih s]

theorem changesFold_webhook_events (ora : Nat → FetchRes) (eid : Str)
    (chs : List Change) (s : St) :
    (chs.foldl (fun s ch =>
        if ch.field == commentsS || ch.field == liveCommentsS then
          Render.handleComment ora eid ch.value s
        else s) s).store.webhook_events = s.store.webhook_events := by
  induction chs generalizing s with
  | nil => rfl
  | cons ch rest ih =>
    by_cases h : (ch.field == commentsS || ch.field == liveCommentsS) = true
    · simp only [List.foldl_cons, h, if_true]
      exact (ih (Render.handleComment ora eid ch.value s)).trans
        (handleComment_frame ora eid ch.value s).2
    · simp only [List.foldl_cons, h, Bool.false_eq_true, if_false]
      exact ih s

theorem processWebhookEntries_comments (ora : Nat → FetchRes) (entries : List Entry)
    (s : St) :
    (Render.processWebhookEntries ora entries s).store.comments.map (fun c => c.error)
      = s.store.comments.map (fun c => c.error)
        ++ List.replicate (commentChangeCount entries) none := by
  induction entries generalizing s with
  | nil => simp [Render.processWebhookEntries, commentChangeCount]
  | cons entry rest ih =>
    unfold Render.processWebhookEntries at ih ⊢
    simp only [List.foldl_cons]
    rw [ih]
    have hstep : ∀ s0 : St,
        ((match entry.changes with
          | none => s0
          | some chs => chs.foldl (fun (s : St) (ch : Change) =>
              if ch.field == commentsS || ch.field == liveCommentsS then
                Render.handleComment ora entry.id ch.value s
              else s) s0).store.comments.map (fun (c : CommentEvent) => c.error))
          = s0.store.comments.map (fun c => c.error) ++
            List.replicate (((entry.changes.getD []).filter
              (fun ch => ch.field == commentsS || ch.field == liveCommentsS)).length) none := by
      intro s0
      cases hch : entry.changes with
      | none => simp
      | some chs => simpa using changesFold_comments ora entry.id chs s0
    have hmsg : ∀ s0 : St,
        ((match entry.messaging with
          | none => s0
          | some items => items.foldl (fun (s : St) (m : MessagingItem) =>
              Render.handleMessage ora entry.id m s) s0)
            |>.store.comments)
          = s0.store.comments := by
      intro s0
      cases hmm : entry.messaging with
      | none => rfl
      | some items => exact (messagingFold_frame ora entry.id items s0).1
    rw [hstep, hmsg]
    have hccc : commentChangeCount (entry :: rest)
        = ((entry.changes.getD []).filter
            (fun ch => ch.field == commentsS || ch.field == liveCommentsS)).length
          + commentChangeCount rest := by
      simp [commentChangeCount]
    rw [List.append_assoc, hccc, List.replicate_add]

theorem processWebhookEntries_webhook_events (ora : Nat → FetchRes)
    (entries : List Entry) (s : St) :
    (Render.processWebhookEntries ora entries s).store.webhook_events
      = s.store.webhook_events := by
  induction entries generalizing s with
  | nil => rfl
  | cons entry rest ih =>
    unfold Render.processWebhookEntries at ih ⊢
    simp only [List.foldl_cons]
    rw [ih]
    have hstep : ∀ s0 : St,
        ((match entry.changes with
          | none => s0
          | some chs => chs.foldl (fun (s : St) (ch : Change) =>
              if ch.field == commentsS || ch.field == liveCommentsS then
                Render.handleComment ora entry.id ch.value s
              else s) s0).store.webhook_events) = s0.store.webhook_events := by
      intro s0
      cases hch : entry.changes with
      | none => rfl
      | some chs => exact changesFold_webhook_events ora entry.id chs s0
    have hmsg : ∀ s0 : St,
        ((match entry.messaging with
          | none => s0
          | some items => items.foldl (fun (s : St) (m : MessagingItem) =>
              Render.handleMessage ora entry.id m s) s0)
            |>.store.webhook_events) = s0.store.webhook_events := by
      intro s0
      cases hmm : entry.messaging with
      | none => rfl
      | some items => exact (messagingFold_frame ora entry.id items s0).2
    rw [hstep, hmsg]

theorem sweepOne_comments_clean (ora : Nat → FetchRes) (ev : WebhookEvent) (s : St)
    (h : ∀ c ∈ s.store.comments, c.error = none) :
    ∀ c ∈ (Render.sweepOne ora ev s).store.comments, c.error = none := by
  unfold Render.sweepOne
  by_cases hc : (ev.data.object == instagramS && ev.data.entry.isSome) = true
  · simp only [hc, if_true]
    intro c hmem
    have hmap := processWebhookEntries_comments ora (ev.data.entry.getD []) s
    simp only [setWebhookEvents_comments] at hmem
    have hmm : c.error ∈ (Render.processWebhookEntries ora
        (ev.data.entry.getD []) s).store.comments.map (fun c => c.error) :=
      List.mem_map_of_mem (fun c => c.error) hmem
    rw [hmap] at hmm
    rcases List.mem_append.mp hmm with h1 | h1
    · rcases List.mem_map.mp h1 with ⟨x, hx, hxe⟩
      rw [← hxe]
      exact h x hx
    · exact (List.eq_of_mem_replicate h1)
  · simp only [hc, Bool.false_eq_true, if_false]
    exact h

theorem sweepOne_webhook_events (ora : Nat → FetchRes) (ev : WebhookEvent) (s : St) :
    ∀ e ∈ (Render.sweepOne ora ev s).store.webhook_events,
      e ∈ s.store.webhook_events ∨ e.processed = true := by
  unfold Render.sweepOne
  by_cases hc : (ev.data.object == instagramS && ev.data.entry.isSome) = true
  · simp only [hc, if_true]
    intro e hmem
    have hpe := processWebhookEntries_webhook_events ora (ev.data.entry.getD []) s
    simp only [setWebhookEvents_webhook_events, hpe] at hmem
    rcases mem_updateFirst hmem with h1 | ⟨x, hx, hex⟩
    · exact Or.inl h1
    · exact Or.inr (by simp [hex])
  · simp only [hc, Bool.false_eq_true, if_false]
    intro e he
    exact Or.inl he

theorem sweepFold_comments_clean (ora : Nat → FetchRes) (evs : List WebhookEvent)
    (s : St) (h : ∀ c ∈ s.store.comments, c.error = none) :
    ∀ c ∈ (evs.foldl (fun s ev => Render.sweepOne ora ev s) s).store.comments,
      c.error = none := by
  induction evs generalizing s with
  | nil => exact h
  | cons ev rest ih =>
    simp only [List.foldl_cons]
    exact ih (Render.sweepOne ora ev s) (sweepOne_comments_clean ora ev s h)

theorem sweepFold_webhook_events (ora : Nat → FetchRes) (evs : List WebhookEvent)
    (s : St) :
    ∀ e ∈ (evs.foldl (fun s ev => Render.sweepOne ora ev s) s).store.webhook_events,
      e ∈ s.store.webhook_events ∨ e.processed = true := by
  induction evs generalizing s with
  | nil => intro e he; exact Or.inl he
  | cons ev rest ih =>
    simp only [List.foldl_cons]
    intro e he
    rcases ih (Render.sweepOne ora ev s) e he with h1 | h1
    · exact sweepOne_webhook_events ora ev s e h1
    · exact Or.inr h1

theorem runCommentAutomations_fail (ora : Nat → FetchRes) (ig : Str)
    (cd : CommentEvent) (low : Str) (autos : List Automation) (s : St)
    (a : Automation)
    (hfind : autos.find? (fun b => hasKeyword b low) = some a)
    (hfail : (replyToComment ora cd.commentId a.replyMessage ig s).1.success = false) :
    (Render.runCommentAutomations ora ig cd low autos s).store.comments
        = s.store.comments
    ∧ (Render.runCommentAutomations ora ig cd low autos s).store.automation_logs
        = s.store.automation_logs := by
  induction autos generalizing s with
  | nil => simp at hfind
  | cons b rest ih =>
    by_cases h : hasKeyword b low = true
    · have hba : b = a := by
        rw [@List.find?_cons_of_pos _ (fun b => hasKeyword b low) b rest h] at hfind
        exact Option.some.inj hfind
      subst hba
      simp only [Render.runCommentAutomations, h, if_true, hfail,
        Bool.false_eq_true, if_false]
      have hf := replyToComment_frame ora cd.commentId b.replyMessage ig s
      simp [hf.1]
    · rw [@List.find?_cons_of_neg _ (fun b => hasKeyword b low) b rest h] at hfind
      simp only [Render.runCommentAutomations, h, if_false]
      exact ih s hfind hfail

theorem liveToken_none_of_forall (accounts : List Account) (ig : Str)
    (h : ∀ a ∈ accounts, a.instagramId = ig → a.accessToken = none) :
    liveToken (findAccount accounts ig) = none := by
  unfold liveToken findAccount
  cases hf : accounts.find? (fun a => a.instagramId == ig) with
  | none => rfl
  | some a =>
    have hmem := List.mem_of_find?_eq_some hf
    have hbeq : a.instagramId = ig := by simpa using List.find?_some hf
    have := h a hmem hbeq
    simp [truthy, this]

theorem sendDirectMessage_noToken (ora : Nat → FetchRes) (ig : Str)
    (recip : Option Str) (msg : Str) (s : St)
    (h : liveToken (findAccount s.store.accounts ig) = none) :
    (sendDirectMessage ora ig recip msg s).1
        = { success := false, rid := none, error := some ErrVal.noToken }
    ∧ (sendDirectMessage ora ig recip msg s).2.calls = s.calls := by
  unfold sendDirectMessage
  simp [h]

theorem replyToComment_noToken (ora : Nat → FetchRes) (cid msg ig : Str) (s : St)
    (h : liveToken (findAccount s.store.accounts ig) = none) :
    (replyToComment ora cid msg ig s).1
        = { success := false, rid := none, error := some ErrVal.noToken }
    ∧ (replyToComment ora cid msg ig s).2.calls = s.calls := by
  unfold replyToComment
  simp [h]

/-! ## Concrete fixtures -/

/-- An external API that accepts every call. -/
def oraOk : Nat → FetchRes := fun _ => { ok := true, respId := some ("rid".data) }

def igS : Str := "ig".data

def emptyStore : Store :=
  { webhook_events := [], messages := [], comments := [], accounts := [],
    automations := [], automation_logs := [], webhook_logs := [] }

def stEmpty : St :=
  { store := emptyStore, dispatches := [], calls := [], nextId := 0, now := 0 }

/-- An active comment automation with keyword `hi` and reply `thanks`. -/
def autoHi : Automation :=
  { docId := 10, instagramId := igS, isActive := true,
    type := ("comment".data), name := ("auto".data),
    triggerKeywords := some [("hi".data)], replyMessage := ("thanks".data) }

def acctTok : Account := { instagramId := igS, accessToken := some ("tok".data) }

/-- A comment change value with the given comment id and text. -/
def valOf (cid txt : Str) : CommentValue :=
  { id := some cid, comment_id := none,
    mediaId := none, parent_id := none, fromId := some ("u1".data),
    fromUsername := none, text := some txt, created_time := some 3,
    timestamp := none }

/-- An entry carrying exactly one `comments` change. -/
def entOf (cid txt : Str) : Entry :=
  { id := igS, messaging := none,
    changes := some [{ field := ("comments".data), value := valOf cid txt }],
    field := none, value := none }

/-- An unprocessed webhook event wrapping one comment change. -/
def evOf (did : Nat) (cid txt : Str) (created : Nat) : WebhookEvent :=
  { docId := did,
    data := { object := ("instagram".data), entry := some [entOf cid txt] },
    processed := false, error := none, processedAt := none, createdAt := created }

/-- C1 fixture: comment `c1` already replied (isProcessed, replyId set) while
its originating webhook event is still unprocessed. -/
def oldComment : CommentEvent :=
  { docId := 0, instagramId := igS,
    commentId := ("c1".data), mediaId := none, parentId := none, userId := none,
    username := none, text := ("hi there".data), timestamp := 3, createdAt := 3,
    isProcessed := true, automationId := some 10, replyId := some ("r1".data),
    repliedAt := some 5, error := none }

def storeC1 : Store :=
  { emptyStore with comments := [oldComment],
                    webhook_events := [evOf 1 ("c1".data) ("hi there".data)  0],
                    accounts := [acctTok], automations := [autoHi] }

def stC1 : St :=
  { store := storeC1, dispatches := [], calls := [], nextId := 100, now := 50 }

/-- C3 fixture oracle: the first outbound call succeeds, later ones fail. -/
def oraC3 : Nat → FetchRes := fun n => { ok := n == 0, respId := some ("r".data) }

/-- C3 fixture: three unprocessed comment events, all matching `autoHi`. -/
def storeC3 : Store :=
  { emptyStore with
      webhook_events := [evOf 1 ("ca".data) ("hi a".data) 1,
                         evOf 2 ("cb".data) ("hi b".data) 2,
                         evOf 3 ("cc".data) ("hi c".data) 3],
      accounts := [acctTok], automations := [autoHi] }

def stC3 : St :=
  { store := storeC3, dispatches := [], calls := [], nextId := 100, now := 50 }

/-- C4 fixture: one unprocessed comment event, no automations, no accounts. -/
def storeC4 : Store :=
  { emptyStore with webhook_events := [evOf 7 ("c4".data) ("nice post".data) 0] }

def stC4 : St :=
  { store := storeC4, dispatches := [], calls := [], nextId := 0, now := 9 }

/-- C8 fixture: a webhook log row (written by the out-of-scope forwarder)
whose `data.entry.0.id` is `e1`. -/
def logJs : WebhookLog :=
  { eventType := ("webhook_received".data), success := true,
    dataFirstEntryId := some ("e1".data), processed := false, processedAt := none }

/-- C8 fixture: a non-Instagram envelope whose first entry id is `e1`. -/
def bodyC8 : WebhookPayload :=
  { object := ("x".data),
    entry := some [{ id := ("e1".data), messaging := none, changes := none,
                     field := none, value := none }] }

def stC8 : St :=
  { store := { emptyStore with webhook_logs := [logJs] },
    dispatches := [], calls := [], nextId := 0, now := 7 }

/-- C9 witness fixture: one matching comment automation but no account, so
the reply fails with `No access token`. -/
def storeW9 : Store := { emptyStore with automations := [autoHi] }

def stW9 : St :=
  { store := storeW9, dispatches := [], calls := [], nextId := 0, now := 4 }

def cdW9 : CommentEvent :=
  { docId := 3, instagramId := igS,
    commentId := ("c9".data), mediaId := none, parentId := none, userId := none,
    username := none, text := ("hi".data), timestamp := 1, createdAt := 1,
    isProcessed := false, automationId := none, replyId := none,
    repliedAt := none, error := none }

/-- C10 witness fixture: a message automation whose keyword list contains the
empty string. -/
def autoEmptyKw : Automation :=
  { docId := 11, instagramId := igS, isActive := true,
    type := ("message".data), name := ("catchall".data),
    triggerKeywords := some [[]], replyMessage := ("hello".data) }

def storeW10 : Store :=
  { emptyStore with automations := [autoEmptyKw], accounts := [acctTok] }

def stW10 : St :=
  { store := storeW10, dispatches := [], calls := [], nextId := 0, now := 2 }

def mdW10 : MessageEvent :=
  { docId := 5, instagramId := igS, messageId := ("m1".data),
    senderId := some ("u2".data), recipientId := some igS, timestamp := 1,
    text := ("anything at all".data), attachments := [], isEcho := false,
    createdAt := 1, processed := false }

/-- C7 witness fixture: an echo messaging item. -/
def mEcho : MessagingItem :=
  { senderId := some ("u3".data), recipientId := some igS, timestamp := some 1,
    message := some { mid := some ("mid1".data), is_echo := true,
                      text := some ("yo".data), attachments := none } }

/-! ## Claim theorems -/

/-- C1: the claim states that once a comment's stored record has
`isProcessed = true` together with a `replyId`, a reconciliation sweep never
invokes `replyToComment` for that comment again.  The code violates this:
in `stC1` comment `c1` is stored processed with reply `r1`, yet the sweep
re-drives the still-unprocessed webhook event through `handleComment`,
inserting a duplicate record for `c1` and invoking `replyToComment` for `c1`
once more.  This theorem evaluates the code at that failing input. -/
theorem c1_sweep_redispatches_processed_comment :
    (stC1.store.comments.map (fun c => (c.commentId, c.isProcessed, c.replyId))
        = [(("c1".data), true, some ("r1".data))])
    ∧ (Render.processPending oraOk stC1).2.dispatches
        = [Dispatch.commentReply ("c1".data) ("thanks".data) igS]
    ∧ (Render.processPending oraOk stC1).2.store.comments.length = 2 := by
  decide

/-- C2: for every event and every loaded automation list, at most one
automation fires, namely the first in load order with a keyword whose
lowercased form is a substring of the lowercased event text; scanning stops
there.  The dispatch list grows by exactly the dispatch of
`List.find?`'s result (none ⇒ no dispatch), and the keyword test is the
case-insensitive substring test. -/
theorem c2_first_match_wins (ora : Nat → FetchRes) (ig : Str) (cd : CommentEvent)
    (md : MessageEvent) (s : St) :
    ((Render.processCommentAutomation ora ig cd s).dispatches =
      s.dispatches ++ (match (activeAutomations s.store ig commentS).find?
          (fun a => hasKeyword a (toLowerStr cd.text)) with
        | none => []
        | some a => [Dispatch.commentReply cd.commentId a.replyMessage ig]))
    ∧ ((Render.processMessageAutomation ora ig md s).dispatches =
      s.dispatches ++ (match (activeAutomations s.store ig messageS).find?
          (fun a => hasKeyword a (toLowerStr md.text)) with
        | none => []
        | some a => [Dispatch.dm ig md.senderId a.replyMessage]))
    ∧ (∀ a : Automation, ∀ low : Str, (hasKeyword a low = true ↔
        ∃ kw ∈ a.triggerKeywords.getD [], includes low (toLowerStr kw) = true)) :=
  ⟨processCommentAutomation_dispatches ora ig cd s,
   processMessageAutomation_dispatches ora ig md s,
   fun a low => by simp [hasKeyword]⟩

/-- C3 (amended): outbound reply failures are returned as values, never
thrown, so the sweep records no failure on any record: comments never gain
an `error` attribute, swept events only ever flip to `processed = true`, and
in the concrete 1-success/2-failure sweep over three unprocessed comment
events the store ends with comments `[(isProcessed, error)] =
[(true,none),(false,none),(false,none)]` and all three webhook events marked
processed. -/
theorem c3_amended_failures_not_recorded (ora : Nat → FetchRes) (s : St)
    (h : ∀ c ∈ s.store.comments, c.error = none) :
    (∀ c ∈ (Render.processPending ora s).2.store.comments, c.error = none)
    ∧ (∀ e ∈ (Render.processPending ora s).2.store.webhook_events,
        e ∈ s.store.webhook_events ∨ e.processed = true)
    ∧ ((Render.processPending oraC3 stC3).2.store.comments.map
        (fun c => (c.isProcessed, c.error))
          = [(true, none), (false, none), (false, none)])
    ∧ ((Render.processPending oraC3 stC3).2.store.webhook_events.map
        (fun e => (e.processed, e.error))
          = [(true, none), (true, none), (true, none)]) := by
  refine ⟨?_, ?_, by decide, by decide⟩
  · intro c hc
    have hrw : (Render.processPending ora s).2
        = (Render.fetchPending s.store.webhook_events 50).foldl
            (fun s ev => Render.sweepOne ora ev s) s := rfl
    rw [hrw] at hc
    exact sweepFold_comments_clean ora _ s h c hc
  · intro e he
    have hrw : (Render.processPending ora s).2
        = (Render.fetchPending s.store.webhook_events 50).foldl
            (fun s ev => Render.sweepOne ora ev s) s := rfl
    rw [hrw] at he
    exact sweepFold_webhook_events ora _ s e he

/-- C3: the claim as stated is false — in the 1-success/2-failure sweep the
two failed comment events do not get an `error` recorded (no comment ever
carries one) and the sweep marks the webhook events processed anyway. -/
theorem c3_cex_no_error_recorded :
    ((Render.processPending oraC3 stC3).2.store.comments.filter
        (fun c => c.error.isSome)).length = 0
    ∧ ((Render.processPending oraC3 stC3).2.store.comments.filter
        (fun c => !c.isProcessed)).length = 2
    ∧ ((Render.processPending oraC3 stC3).2.store.webhook_events.filter
        (fun e => !e.processed)).length = 0 := by
  decide

/-- C4 (amended): re-driving an unprocessed event runs the full ingestion
path again, re-ingesting it: `handleComment` always inserts a new
CommentEvent, `handleMessage` inserts a new MessageEvent for a non-echo
messaging item, and a sweep step over an Instagram envelope grows the
comments collection by exactly the envelope's number of comment changes. -/
theorem c4_amended_sweep_reingests (ora : Nat → FetchRes) (ig : Str)
    (v : CommentValue) (m : MessagingItem) (p : MessagePayload)
    (ev : WebhookEvent) (s : St)
    (hm : m.message = some p) (he : p.is_echo = false)
    (hev : (ev.data.object == instagramS && ev.data.entry.isSome) = true) :
    (Render.handleComment ora ig v s).store.comments.length
        = s.store.comments.length + 1
    ∧ (Render.handleMessage ora ig m s).store.messages.length
        = s.store.messages.length + 1
    ∧ (Render.sweepOne ora ev s).store.comments.length
        = s.store.comments.length + commentChangeCount (ev.data.entry.getD []) := by
  refine ⟨?_, ?_, ?_⟩
  · have := congrArg List.length (handleComment_comments ora ig v s)
    simpa using this
  · have := congrArg List.length (handleMessage_messages_insert ora ig m p s hm he)
    simpa using this
  · unfold Render.sweepOne
    simp only [hev, if_true]
    have := congrArg List.length
      (processWebhookEntries_comments ora (ev.data.entry.getD []) s)
    simpa using this

/-- C4: the claim as stated — the sweep inserts no new MessageEvent or
CommentEvent — is false: sweeping `stC4`'s single unprocessed comment event
inserts a new CommentEvent record. -/
theorem c4_cex_sweep_inserts :
    stC4.store.comments.length = 0
    ∧ (Render.processPending oraOk stC4).2.store.comments.length = 1 := by
  decide

/-- C5: when the store has no account for the id, or every such account
lacks an access token, both Dispatcher operations return
`{success:false, error:"No access token"}` and issue no outbound HTTP call. -/
theorem c5_no_token_fail_fast (ora : Nat → FetchRes) (ig : Str)
    (recip : Option Str) (msgText commentId : Str) (s : St)
    (h : ∀ a ∈ s.store.accounts, a.instagramId = ig → a.accessToken = none) :
    ((sendDirectMessage ora ig recip msgText s).1
        = { success := false, rid := none, error := some ErrVal.noToken }
      ∧ (sendDirectMessage ora ig recip msgText s).2.calls = s.calls)
    ∧ ((replyToComment ora commentId msgText ig s).1
        = { success := false, rid := none, error := some ErrVal.noToken }
      ∧ (replyToComment ora commentId msgText ig s).2.calls = s.calls) := by
  have hl := liveToken_none_of_forall s.store.accounts ig h
  exact ⟨sendDirectMessage_noToken ora ig recip msgText s hl,
         replyToComment_noToken ora commentId msgText ig s hl⟩

/-- C6: fetching pending events returns only `processed = false` events,
ordered by `createdAt` ascending, and at most 50 of them. -/
theorem c6_fetchPending_spec (evs : List WebhookEvent) :
    (∀ e ∈ Render.fetchPending evs 50, e.processed = false)
    ∧ (Render.fetchPending evs 50).Pairwise (fun a b => a.createdAt ≤ b.createdAt)
    ∧ (Render.fetchPending evs 50).length ≤ 50 := by
  refine ⟨?_, ?_, ?_⟩
  · intro e he
    have h1 : e ∈ List.insertionSort Render.createdLe
        (evs.filter (fun e => !e.processed)) := List.take_subset _ _ he
    have h2 : e ∈ evs.filter (fun e => !e.processed) :=
      (List.mem_insertionSort Render.createdLe).mp h1
    simpa using (List.mem_filter.mp h2).2
  · have hs : (List.insertionSort Render.createdLe
        (evs.filter (fun e => !e.processed))).Sorted Render.createdLe :=
      List.sorted_insertionSort Render.createdLe _
    exact List.Pairwise.sublist (List.take_sublist _ _) hs
  · exact List.length_take_le 50 (List.insertionSort Render.createdLe
      (evs.filter (fun e => !e.processed)))

/-- C7: a messaging item with no `message` payload or with `is_echo` true
creates no MessageEvent — `handleMessage` leaves the state untouched, with
no error logged — and every persisted MessageEvent has `isEcho = false`. -/
theorem c7_echo_filtered (ora : Nat → FetchRes) (ig : Str) (m : MessagingItem)
    (s : St) :
    ((m.message.all fun p => p.is_echo) = true → Render.handleMessage ora ig m s = s)
    ∧ (∀ e ∈ (Render.handleMessage ora ig m s).store.messages,
        e ∈ s.store.messages ∨ e.isEcho = false) := by
  constructor
  · intro h
    exact handleMessage_skip ora ig m s h
  · intro e he
    cases hm : m.message with
    | none =>
      rw [handleMessage_skip ora ig m s (by simp [hm])] at he
      exact Or.inl he
    | some p =>
      by_cases hp : p.is_echo = true
      · rw [handleMessage_skip ora ig m s (by simp [hm, hp])] at he
        exact Or.inl he
      · have hins := handleMessage_messages_insert ora ig m p s hm
          (by simpa using hp)
        rw [hins] at he
        rcases List.mem_append.mp he with h1 | h1
        · exact Or.inl h1
        · simp only [List.mem_singleton] at h1
          subst h1
          exact Or.inr (buildMessageData_isEcho ig m p s)

/-- C8 (amended): for a non-Instagram or entry-less envelope, the
`/webhook/process` endpoint (part_000) answers 400 and leaves the state
untouched; the `/process-webhook` endpoint (server.js), however, answers
200 and still performs its webhook-log update. -/
@[simp] theorem setWebhookLogs_logs (l : List WebhookLog) (s : St) :
    (setWebhookLogs l s).store.webhook_logs = l := rfl

theorem c8_amended_envelope_rejection (ora : Nat → FetchRes)
    (body : WebhookPayload) (s : St)
    (h : (body.object == instagramS && body.entry.isSome) = false) :
    (Render.webhookProcess ora body s
        = ({ status := 400, success := false, processed := none }, s))
    ∧ ((Processor.processWebhook true ora body s).1.status = 200
      ∧ (Processor.processWebhook true ora body s).2.store.webhook_logs
          = updateFirst (fun d => d.dataFirstEntryId == firstEntryId body)
              (fun d => { d with processed := true, processedAt := some s.now })
              s.store.webhook_logs) := by
  refine ⟨?_, ?_, ?_⟩
  · unfold Render.webhookProcess
    simp [h]
  · unfold Processor.processWebhook
    simp [h]
  · unfold Processor.processWebhook
    simp [h]

/-- C8: the claim as stated — the webhook-processing endpoint returns 400
and performs no persistence on an invalid envelope — is false for the
`/process-webhook` endpoint of `src/server.js`: on the non-Instagram
envelope `bodyC8` it answers 200, not 400, and flips the matching stored
webhook-log record to `processed = true`. -/
theorem c8_cex_processor_accepts_and_updates :
    ((Processor.processWebhook true oraOk bodyC8 stC8).1.status = 200)
    ∧ ¬((Processor.processWebhook true oraOk bodyC8 stC8).1.status = 400)
    ∧ ((Processor.processWebhook true oraOk bodyC8 stC8).2.store.webhook_logs.map
        (fun d => d.processed) = [true])
    ∧ (stC8.store.webhook_logs.map (fun d => d.processed) = [false]) := by
  decide

/-- C9: when the first matching automation's outbound comment reply fails
(`success = false`), the comments collection and the automation_logs
collection are left exactly as they were: the comment is not marked
processed, gains no attribute, and no firing record is inserted. -/
theorem c9_dispatch_failure_atomic (ora : Nat → FetchRes) (ig : Str)
    (cd : CommentEvent) (s : St) (a : Automation)
    (hfind : (activeAutomations s.store ig commentS).find?
        (fun b => hasKeyword b (toLowerStr cd.text)) = some a)
    (hfail : (replyToComment ora cd.commentId a.replyMessage ig s).1.success
        = false) :
    (Render.processCommentAutomation ora ig cd s).store.comments
        = s.store.comments
    ∧ (Render.processCommentAutomation ora ig cd s).store.automation_logs
        = s.store.automation_logs := by
  unfold Render.processCommentAutomation
  have hne : (activeAutomations s.store ig commentS).isEmpty = false := by
    cases hA : activeAutomations s.store ig commentS with
    | nil => rw [hA] at hfind; simp at hfind
    | cons x t => simp [hA]
  simp only [hne, Bool.false_eq_true, if_false]
  exact runCommentAutomations_fail ora ig cd (toLowerStr cd.text) _ s a hfind hfail

/-- C10: an automation whose `triggerKeywords` contains the empty string
passes the keyword test on every event text (the empty string is a substring
of every string); hence wherever such an automation is in the loaded list,
the scan finds a match and exactly one dispatch is issued, whatever the
text. -/
theorem c10_empty_keyword_matches_all (a : Automation) (text : Str)
    (autos : List Automation) (ora : Nat → FetchRes) (ig : Str)
    (md : MessageEvent) (s : St)
    (hkw : [] ∈ a.triggerKeywords.getD []) :
    (hasKeyword a text = true)
    ∧ (a ∈ autos →
        ((autos.find? (fun b => hasKeyword b (toLowerStr text))).isSome = true))
    ∧ (a ∈ activeAutomations s.store ig messageS →
        (Render.processMessageAutomation ora ig md s).dispatches.length
          = s.dispatches.length + 1) := by
  have hany : ∀ t : Str, hasKeyword a t = true := by
    intro t
    unfold hasKeyword
    refine List.any_eq_true.mpr ⟨[], hkw, ?_⟩
    simpa [toLowerStr] using includes_nil t
  refine ⟨hany text, ?_, ?_⟩
  · intro ha
    exact List.find?_isSome.mpr ⟨a, ha, hany (toLowerStr text)⟩
  · intro ha
    have hsome : ((activeAutomations s.store ig messageS).find?
        (fun b => hasKeyword b (toLowerStr md.text))).isSome = true :=
      List.find?_isSome.mpr ⟨a, ha, hany (toLowerStr md.text)⟩
    rcases Option.isSome_iff_exists.mp hsome with ⟨b, hb⟩
    rw [processMessageAutomation_dispatches ora ig md s, hb]
    simp

/-! ## Witnesses -/

def pW4 : MessagePayload :=
  { mid := some ("m4".data), is_echo := false, text := some ("hi".data),
    attachments := none }

def mW4 : MessagingItem :=
  { senderId := some ("u4".data), recipientId := some igS, timestamp := some 2,
    message := some pW4 }

theorem c3_amended_witness :
    (∀ c ∈ stC3.store.comments, c.error = none)
    ∧ (∀ c ∈ (Render.processPending oraC3 stC3).2.store.comments,
        c.error = none) :=
  ⟨by decide, (c3_amended_failures_not_recorded oraC3 stC3 (by decide)).1⟩

theorem c4_amended_witness :
    (mW4.message = some pW4 ∧ pW4.is_echo = false
      ∧ ((evOf 7 ("c4".data) ("nice post".data) 0).data.object == instagramS
          && (evOf 7 ("c4".data) ("nice post".data) 0).data.entry.isSome) = true)
    ∧ ((Render.handleComment oraOk igS (valOf ("c4".data) ("nice post".data))
          stEmpty).store.comments.length = stEmpty.store.comments.length + 1
      ∧ (Render.handleMessage oraOk igS mW4 stEmpty).store.messages.length
          = stEmpty.store.messages.length + 1
      ∧ (Render.sweepOne oraOk (evOf 7 ("c4".data) ("nice post".data) 0)
            stEmpty).store.comments.length
          = stEmpty.store.comments.length + commentChangeCount
              ((evOf 7 ("c4".data) ("nice post".data) 0).data.entry.getD [])) :=
  ⟨⟨rfl, rfl, by decide⟩,
   c4_amended_sweep_reingests oraOk igS (valOf ("c4".data) ("nice post".data))
     mW4 pW4 (evOf 7 ("c4".data) ("nice post".data) 0) stEmpty rfl rfl (by decide)⟩

theorem c5_witness :
    (∀ a ∈ stEmpty.store.accounts, a.instagramId = igS → a.accessToken = none)
    ∧ (((sendDirectMessage oraOk igS none ("hello".data) stEmpty).1
        = { success := false, rid := none, error := some ErrVal.noToken }
      ∧ (sendDirectMessage oraOk igS none ("hello".data) stEmpty).2.calls
          = stEmpty.calls)
    ∧ ((replyToComment oraOk ("c5w".data) ("hello".data) igS stEmpty).1
        = { success := false, rid := none, error := some ErrVal.noToken }
      ∧ (replyToComment oraOk ("c5w".data) ("hello".data) igS stEmpty).2.calls
          = stEmpty.calls)) :=
  ⟨by decide,
   c5_no_token_fail_fast oraOk igS none ("hello".data) ("c5w".data) stEmpty
     (by decide)⟩

theorem c7_witness :
    ((mEcho.message.all fun p => p.is_echo) = true)
    ∧ Render.handleMessage oraOk igS mEcho stEmpty = stEmpty :=
  ⟨by decide, (c7_echo_filtered oraOk igS mEcho stEmpty).1 (by decide)⟩

theorem c8_amended_witness :
    ((bodyC8.object == instagramS && bodyC8.entry.isSome) = false)
    ∧ Render.webhookProcess oraOk bodyC8 stC8
        = ({ status := 400, success := false, processed := none }, stC8) :=
  ⟨by decide, (c8_amended_envelope_rejection oraOk bodyC8 stC8 (by decide)).1⟩

theorem c9_witness :
    ((activeAutomations stW9.store igS commentS).find?
        (fun b => hasKeyword b (toLowerStr cdW9.text)) = some autoHi
      ∧ (replyToComment oraOk cdW9.commentId autoHi.replyMessage igS
          stW9).1.success = false)
    ∧ ((Render.processCommentAutomation oraOk igS cdW9 stW9).store.comments
        = stW9.store.comments
      ∧ (Render.processCommentAutomation oraOk igS cdW9 stW9).store.automation_logs
        = stW9.store.automation_logs) :=
  ⟨⟨by decide, by decide⟩,
   c9_dispatch_failure_atomic oraOk igS cdW9 stW9 autoHi (by decide) (by decide)⟩

theorem c10_witness :
    ([] ∈ autoEmptyKw.triggerKeywords.getD [])
    ∧ hasKeyword autoEmptyKw ("xyz".data) = true
    ∧ (([autoEmptyKw].find?
        (fun b => hasKeyword b (toLowerStr ("xyz".data)))).isSome = true)
    ∧ ((Render.processMessageAutomation oraOk igS mdW10 stW10).dispatches.length
        = stW10.dispatches.length + 1) := by
  have h := c10_empty_keyword_matches_all autoEmptyKw ("xyz".data) [autoEmptyKw]
    oraOk igS mdW10 stW10 (by decide)
  exact ⟨by decide, h.1, h.2.1 (by decide), h.2.2 (by decide)⟩
